import Mathlib

/-!
# Verification of the privileged-ipc crate (ikeycode/ipc-tests)

A shallow embedding of `src/privileged-ipc/src/lib.rs` (with the near-identical
snapshot `src/src/moss_service.rs`): the execution strategies (`PkexecExecutor`,
`DirectExecutor`), the typed channel's `send`, the `IpcMessageIterator` decode
step, the bootstrap's forked child branch, the environment-marker strategy
selection, and the file-descriptor redirection performed by `service_init`.

I/O effects are modelled explicitly: the outcome of an OS call (flush, decode,
spawn) is passed in as data, and descriptor operations are interpreted over an
explicit descriptor table. Environments are partial maps from variable names to
values.
-/

namespace PrivilegedIpc

/-- The `std::io::ErrorKind` values the library inspects, plus a catch-all for
every other kind (`other n` with a numeric tag so distinct kinds stay distinct). -/
inductive IoErrorKind where
  | brokenPipe
  | connectionReset
  | unexpectedEof
  | notFound
  | other (code : Nat)
deriving DecidableEq, Repr

/-- The category of a `serde_json::Error`, following `serde_json`'s
`error::Category`: `Io` (carrying the underlying `io::ErrorKind`), `Syntax`,
`Data`, `Eof`. -/
inductive JsonCategory where
  | ioCat (kind : IoErrorKind)
  | synCat
  | dataCat
  | eofCat
deriving DecidableEq, Repr

/-- `serde_json::Error::is_eof` — true exactly for the `Eof` category. -/
def JsonCategory.is_eof : JsonCategory → Bool
  | .eofCat => true
  | _ => false

/-- `serde_json::Error::is_io` — true exactly for the `Io` category. -/
def JsonCategory.is_io : JsonCategory → Bool
  | .ioCat _ => true
  | _ => false

/-- `serde_json::Error::io_error_kind` — the underlying `io::ErrorKind` when the
category is `Io`, `None` otherwise. -/
def JsonCategory.io_error_kind : JsonCategory → Option IoErrorKind
  | .ioCat k => some k
  | _ => none

/-- The `IpcError` enum of `lib.rs` (lines 197-207): `Io`, `Json`, `Privileged`,
`ConnectionClosed`. -/
inductive IpcError where
  | io (kind : IoErrorKind)
  | json (e : JsonCategory)
  | privileged
  | connectionClosed
deriving DecidableEq, Repr

/-- `IpcConnection::send` (lib.rs lines 229-246). The effectful calls are passed
in as their results: `encodeResult` is what `serde_json::to_writer` returned,
`flushResult` what `socket.flush()` would return (only consulted when encoding
succeeded, exactly as in the source). -/
def IpcConnection.send (encodeResult : Except JsonCategory Unit)
    (flushResult : Except IoErrorKind Unit) : Except IpcError Unit :=
  match encodeResult with
  | .ok _ =>
    match flushResult with
    | .ok _ => .ok ()
    | .error e =>
      if e = .brokenPipe then .error .connectionClosed
      else .error (.io e)
  | .error e =>
    if e.is_io && e.io_error_kind == some .brokenPipe then .error .connectionClosed
    else .error (.json e)

/-- State of `IpcMessageIterator` (lib.rs lines 266-270): the buffered
deserializer is abstracted away (each step's decode outcome is an input); the
`eof` flag is the iterator's state. -/
structure IpcMessageIterator where
  eof : Bool
deriving DecidableEq, Repr

/-- The termination classification inside `IpcMessageIterator::next`
(lib.rs lines 284-288): `e.is_eof() || e.io_error_kind() == Some(BrokenPipe)
|| e.io_error_kind() == Some(ConnectionReset) || e.io_error_kind() ==
Some(UnexpectedEof)`. -/
def terminalDecodeError (e : JsonCategory) : Bool :=
  e.is_eof || e.io_error_kind == some .brokenPipe
    || e.io_error_kind == some .connectionReset
    || e.io_error_kind == some .unexpectedEof

/-- `IpcMessageIterator::next` (lib.rs lines 275-296) for message type `R`.
`decodeResult` is what `R::deserialize(&mut self.deserializer)` would yield if
consulted (the function ignores it when `eof` is already set, mirroring the
early return). Returns the yielded element (`none` = iterator yielded nothing)
and the successor state. -/
def IpcMessageIterator.next {R : Type} (it : IpcMessageIterator)
    (decodeResult : Except JsonCategory R) :
    Option (Except IpcError R) × IpcMessageIterator :=
  if it.eof then (none, it)
  else
    match decodeResult with
    | .ok msg => (some (.ok msg), it)
    | .error e =>
      if terminalDecodeError e then (none, { it with eof := true })
      else (some (.error (.json e)), it)

/-- The two `SocketExecutor` implementations of `lib.rs`: `PkexecExecutor`
(privilege escalation via pkexec) and `DirectExecutor` (direct execution). -/
inductive Strategy where
  | pkexecExecutor
  | directExecutor
deriving DecidableEq, Repr

/-- `child_fd` (lib.rs lines 62-64 and 83-85): the descriptor slot the child
process inherits the listening socket at. -/
def Strategy.child_fd : Strategy → Int
  | .pkexecExecutor => 2
  | .directExecutor => 3

/-- `parent_fd` (lib.rs lines 66-68 and 87-89): the descriptor slot the worker
recovers the listening socket from. -/
def Strategy.parent_fd : Strategy → Int
  | .pkexecExecutor => 3
  | .directExecutor => 3

/-- The shape of a `std::process::Command` as the library builds it: the program
to invoke, its arguments in order, and the set of environment variables removed
via `env_remove`. -/
structure Command where
  program : String
  args : List String
  envRemoved : List String
deriving DecidableEq, Repr

/-- `command` (lib.rs lines 70-75 and 91-95): `PkexecExecutor` invokes `pkexec`
with the executable as first argument followed by `args`; `DirectExecutor`
invokes the executable directly with `args`. No environment change here. -/
def Strategy.command : Strategy → String → List String → Command
  | .pkexecExecutor, executable, args =>
    { program := "pkexec", args := executable :: args, envRemoved := [] }
  | .directExecutor, executable, args =>
    { program := executable, args := args, envRemoved := [] }

/-- `Command::env_remove` — marks a variable as removed from the spawned
process's environment. -/
def Command.env_remove (c : Command) (k : String) : Command :=
  { c with envRemoved := k :: c.envRemoved }

/-- A process environment: a partial map from variable names to values. -/
def Env : Type := String → Option String

/-- The environment a spawned command passes to its child: the parent
environment with the `env_remove`d variables deleted. -/
def Command.spawnEnv (c : Command) (parentEnv : Env) : Env :=
  fun k => if k ∈ c.envRemoved then none else parentEnv k

/-- The command built and spawned by the bootstrap's child branch
(lib.rs lines 136-138): `exec.command(executable, args)` followed by
`command.env_remove("PKEXEC_UID")`. -/
def childCommand (strat : Strategy) (executable : String) (args : List String) :
    Command :=
  (strat.command executable args).env_remove "PKEXEC_UID"

/-- The `Error` enum of `lib.rs` (lines 30-43): `IO`, `MappingCollision`,
`Nix`. -/
inductive Error where
  | io (kind : IoErrorKind)
  | mappingCollision
  | nix
deriving DecidableEq, Repr

/-- How the bootstrap's child branch ends: `exitCode c` models
`std::process::exit(c)` (control never returns), `returnErr e` models a `?`
propagating `e` out of `ServiceConnection::new` to its caller inside the child
process. -/
inductive ChildOutcome where
  | exitCode (code : Int)
  | returnErr (e : Error)
deriving DecidableEq, Repr

/-- The child branch of `ServiceConnection::new` (lib.rs lines 132-141).
`fdMappingResult` is what `command.fd_mappings(mappings)` returned (`.error ()`
is a mapping collision); `statusResult` is what `command.status()` returned: on
success an `ExitStatus`, whose `code()` is `some c` or `none` (killed by
signal), modelled as `Option Int`. The source runs `fd_mappings(..)?`, then
`env_remove`, then `status()?`, then `exit(st.code().unwrap_or(1))`. -/
def childBranch (fdMappingResult : Except Unit Unit)
    (statusResult : Except IoErrorKind (Option Int)) : ChildOutcome :=
  match fdMappingResult with
  | .error _ => .returnErr .mappingCollision
  | .ok _ =>
    match statusResult with
    | .error e => .returnErr (.io e)
    | .ok code => .exitCode (code.getD 1)

/-- Strategy selection at worker start, as written identically in
`ServiceListener::new` (lib.rs lines 152-155) and `service_init`
(lib.rs line 184): `env::var_os("PKEXEC_UID")` present selects
`PkexecExecutor`, absent selects `DirectExecutor`. -/
def select_strategy (env : Env) : Strategy :=
  match env "PKEXEC_UID" with
  | some _ => .pkexecExecutor
  | none => .directExecutor

/-- The raw descriptor `ServiceListener::new` (lib.rs lines 151-158)
reconstructs the listener from: the selected strategy's `parent_fd`. -/
def serviceListenerFd (env : Env) : Int :=
  (select_strategy env).parent_fd

/-- A descriptor table: each slot holds an open-file identity (abstracted as a
`Nat`) or is closed. -/
def FdTable : Type := Int → Option Nat

/-- A descriptor operation as issued by `service_init`: `nix::unistd::dup2`
(duplicate `oldfd` onto `newfd`) or `nix::unistd::close`. -/
inductive FdOp where
  | dup2 (oldfd newfd : Int)
  | close (fd : Int)
deriving DecidableEq, Repr

/-- Semantics of one descriptor operation on the table. -/
def applyFdOp (t : FdTable) : FdOp → FdTable
  | .dup2 o n => fun fd => if fd = n then t o else t fd
  | .close f => fun fd => if fd = f then none else t fd

/-- Semantics of a sequence of descriptor operations, applied left to right. -/
def applyFdOps (t : FdTable) : List FdOp → FdTable
  | [] => t
  | op :: rest => applyFdOps (applyFdOp t op) rest

/-- The descriptor operations `service_init` (lib.rs lines 183-195) issues:
none when `PKEXEC_UID` is absent; when present, with `exec = PkexecExecutor`:
`dup2(exec.child_fd(), exec.parent_fd())`, `close(exec.child_fd())`,
`dup2(1, exec.child_fd())`, in that order. -/
def service_initOps (env : Env) : List FdOp :=
  match env "PKEXEC_UID" with
  | none => []
  | some _ =>
    [ .dup2 Strategy.pkexecExecutor.child_fd Strategy.pkexecExecutor.parent_fd,
      .close Strategy.pkexecExecutor.child_fd,
      .dup2 1 Strategy.pkexecExecutor.child_fd ]

/-- `service_init` as a transformation of the process's descriptor table
(it always returns `Ok(())` when the dup/close calls succeed; the absent-marker
branch returns `Ok(())` having issued no operation). -/
def service_init (env : Env) (t : FdTable) : FdTable :=
  applyFdOps t (service_initOps env)

end PrivilegedIpc

namespace PrivilegedIpc

/-! ## Helper lemmas -/

/-- The boolean termination test of `IpcMessageIterator::next` holds exactly for
the four conditions the source lists. -/
theorem terminalDecodeError_iff (e : JsonCategory) :
    terminalDecodeError e = true ↔
      (e.is_eof = true ∨ e.io_error_kind = some .brokenPipe
        ∨ e.io_error_kind = some .connectionReset
        ∨ e.io_error_kind = some .unexpectedEof) := by
  simp [terminalDecodeError, Bool.or_eq_true, beq_iff_eq, or_assoc]

/-- `serviceListenerFd` is the constant 3, whatever the environment holds. -/
theorem serviceListenerFd_eq_three (env : Env) : serviceListenerFd env = 3 := by
  cases h : env "PKEXEC_UID" <;>
    simp [serviceListenerFd, select_strategy, h, Strategy.parent_fd]

/-! ## Claim theorems -/

/-- C1: a decode step performed while the iterator is live (`eof = false`) that
fails with an end-of-input error or a transport error of kind broken-pipe,
connection-reset or unexpected-eof makes the iterator terminal and yields no
element; every other decode failure yields an explicit error element and leaves
the iterator live (`eof` stays false), so a subsequent decode step is still
attempted. -/
theorem decode_failure_classification {R : Type} (it : IpcMessageIterator)
    (e : JsonCategory) (hlive : it.eof = false) :
    ((e.is_eof = true ∨ e.io_error_kind = some .brokenPipe
        ∨ e.io_error_kind = some .connectionReset
        ∨ e.io_error_kind = some .unexpectedEof) →
      @IpcMessageIterator.next R it (.error e)
        = (none, ⟨true⟩)) ∧
    (¬(e.is_eof = true ∨ e.io_error_kind = some .brokenPipe
        ∨ e.io_error_kind = some .connectionReset
        ∨ e.io_error_kind = some .unexpectedEof) →
      @IpcMessageIterator.next R it (.error e)
        = (some (.error (.json e)), ⟨false⟩)) := by
  obtain ⟨b⟩ := it
  cases b
  case false =>
    constructor
    · intro h
      have ht : terminalDecodeError e = true := (terminalDecodeError_iff e).mpr h
      simp [IpcMessageIterator.next, ht]
    · intro h
      have ht : terminalDecodeError e = false := by
        cases hb : terminalDecodeError e
        · rfl
        · exact absurd ((terminalDecodeError_iff e).mp hb) h
      simp [IpcMessageIterator.next, ht]
  case true => simp at hlive

/-- C1 witness: a live iterator hitting a syntax-category decode failure yields
an explicit error element and stays live. -/
theorem decode_failure_classification_witness :
    @IpcMessageIterator.next Unit ⟨false⟩ (.error .synCat)
      = (some (.error (.json .synCat)), ⟨false⟩) :=
  (@decode_failure_classification Unit ⟨false⟩ .synCat rfl).2 (by
    simp [JsonCategory.is_eof, JsonCategory.io_error_kind])

/-- C2: with encoding succeeded, a broken-pipe flush failure is reported as
`ConnectionClosed` and any other flush failure as `Io`; a write failure
surfacing through the encoder as an I/O broken-pipe error is also
`ConnectionClosed`; a non-I/O encoding failure is reported as `Json`; and the
three variants `ConnectionClosed`, `Io`, `Json` are pairwise distinct. -/
theorem send_error_classification (e : JsonCategory) (k : IoErrorKind) :
    (IpcConnection.send (.ok ()) (.error .brokenPipe)
      = .error .connectionClosed) ∧
    (k ≠ .brokenPipe →
      IpcConnection.send (.ok ()) (.error k) = .error (.io k)) ∧
    (e.is_io = false →
      ∀ flushResult, IpcConnection.send (.error e) flushResult
        = .error (.json e)) ∧
    (∀ flushResult,
      IpcConnection.send (.error (.ioCat .brokenPipe)) flushResult
        = .error .connectionClosed) ∧
    (IpcError.connectionClosed ≠ .io k ∧ IpcError.connectionClosed ≠ .json e ∧
      IpcError.io k ≠ .json e) := by
  refine ⟨rfl, ?_, ?_, ?_, by simp, by simp, by simp⟩
  · intro hk
    simp [IpcConnection.send, hk]
  · intro he flushResult
    have : (e.is_io && e.io_error_kind == some .brokenPipe) = false := by
      simp [he]
    simp [IpcConnection.send, this]
  · intro flushResult
    simp [IpcConnection.send, JsonCategory.is_io, JsonCategory.io_error_kind]

/-- C2 witness: instantiating at a not-found flush failure and a data-category
encoding failure. -/
theorem send_error_classification_witness :
    IpcConnection.send (.ok ()) (.error .notFound)
      = .error (.io .notFound) ∧
    IpcConnection.send (.error .dataCat) (.ok ())
      = .error (.json .dataCat) :=
  ⟨(send_error_classification .dataCat .notFound).2.1 (by simp),
   (send_error_classification .dataCat .notFound).2.2.1 rfl (.ok ())⟩

/-- C3: once the `eof` flag is set, every further `next` step yields nothing and
leaves the state unchanged (in particular the flag is never reset to false),
regardless of what the decoder would produce from any further bytes. -/
theorem eof_flag_terminal {R : Type} (it : IpcMessageIterator)
    (d : Except JsonCategory R) (h : it.eof = true) :
    it.next d = (none, it) ∧ ((it.next d).2).eof = true := by
  constructor
  · simp [IpcMessageIterator.next, h]
  · simp [IpcMessageIterator.next, h]

/-- C3 witness: a terminal iterator yields nothing even when a well-formed
message would be decodable. -/
theorem eof_flag_terminal_witness :
    IpcMessageIterator.next ⟨true⟩ (Except.ok ()) = (none, ⟨true⟩) :=
  (eof_flag_terminal ⟨true⟩ (Except.ok ()) rfl).1

/-- C4: the descriptor slot constants: `PkexecExecutor` has `child_fd = 2` and
`parent_fd = 3`; `DirectExecutor` has `child_fd = 3` and `parent_fd = 3`. Both
are constant functions of the strategy value, so they hold for every
invocation. -/
theorem descriptor_slot_contract :
    Strategy.pkexecExecutor.child_fd = 2 ∧
    Strategy.pkexecExecutor.parent_fd = 3 ∧
    Strategy.directExecutor.child_fd = 3 ∧
    Strategy.directExecutor.parent_fd = 3 :=
  ⟨rfl, rfl, rfl, rfl⟩

/-- C5: strategy selection at worker start depends only on presence of the
`PKEXEC_UID` marker: present selects `PkexecExecutor`, absent selects
`DirectExecutor`, and two environments agreeing on that single variable select
the same strategy (no other input influences the selection). -/
theorem select_strategy_marker (env₁ env₂ : Env) :
    ((env₁ "PKEXEC_UID").isSome = true →
      select_strategy env₁ = .pkexecExecutor) ∧
    (env₁ "PKEXEC_UID" = none → select_strategy env₁ = .directExecutor) ∧
    (env₁ "PKEXEC_UID" = env₂ "PKEXEC_UID" →
      select_strategy env₁ = select_strategy env₂) := by
  refine ⟨?_, ?_, ?_⟩
  · intro h
    obtain ⟨v, hv⟩ := Option.isSome_iff_exists.mp h
    simp [select_strategy, hv]
  · intro h
    simp [select_strategy, h]
  · intro h
    simp only [select_strategy, h]

/-- C5 witness: a one-variable environment carrying the marker selects the
elevated strategy; the empty environment selects the direct strategy. -/
theorem select_strategy_marker_witness :
    select_strategy (fun k => if k = "PKEXEC_UID" then some "1000" else none)
      = .pkexecExecutor ∧
    select_strategy (fun _ => none) = .directExecutor :=
  ⟨(select_strategy_marker
      (fun k => if k = "PKEXEC_UID" then some "1000" else none)
      (fun _ => none)).1 (by simp),
   (select_strategy_marker (fun _ => none)
      (fun _ => none)).2.1 rfl⟩

end PrivilegedIpc

namespace PrivilegedIpc

/-- C6 counterexample: with the descriptor mapping succeeded but the spawn of
the external command failing (program not found), the child branch of
`ServiceConnection::new` propagates the error through `?` and so returns
control to its caller inside the child process — refuting "the child branch
never returns control to the caller of the bootstrap, including when the
external command cannot be launched". -/
theorem child_branch_never_returns_cex :
    ¬ ∀ (fdMappingResult : Except Unit Unit)
        (statusResult : Except IoErrorKind (Option Int)) (e : Error),
        childBranch fdMappingResult statusResult ≠ .returnErr e := by
  intro h
  exact h (.ok ()) (.error .notFound) (.io .notFound) rfl

/-- C6 amended: if the external command runs (the spawn succeeds), the child
branch exits with the command's exit code, or 1 when no code is available; but
when the command cannot be launched, or the descriptor mapping fails, the child
branch returns the error to the caller instead of exiting. -/
theorem child_branch_exit_behavior
    (statusResult : Except IoErrorKind (Option Int)) (code : Option Int)
    (e : IoErrorKind) :
    (statusResult = .ok code →
      childBranch (.ok ()) statusResult = .exitCode (code.getD 1)) ∧
    (statusResult = .error e →
      childBranch (.ok ()) statusResult = .returnErr (.io e)) ∧
    childBranch (.error ()) statusResult = .returnErr .mappingCollision := by
  refine ⟨?_, ?_, rfl⟩ <;> (intro h; subst h; rfl)

/-- C6 witness: a command that ran and exited with code 7 makes the child
branch exit with code 7. -/
theorem child_branch_exit_behavior_witness :
    childBranch (.ok ()) (.ok (some 7)) = .exitCode 7 :=
  (child_branch_exit_behavior (.ok (some 7)) (some 7) .notFound).1 rfl

/-- C7: for every strategy, executable, argument list and parent environment,
the command the child branch spawns has the `PKEXEC_UID` marker removed, so the
environment the exec'd worker inherits from this variable-clearing step does
not contain the marker. -/
theorem child_marker_cleared (strat : Strategy) (executable : String)
    (args : List String) (parentEnv : Env) :
    (childCommand strat executable args).spawnEnv parentEnv "PKEXEC_UID"
      = none := by
  cases strat <;>
    simp [childCommand, Command.spawnEnv, Command.env_remove, Strategy.command]

/-- C8: `command` on `PkexecExecutor` yields program `pkexec` with the
executable as first argument followed by `args` in order; on `DirectExecutor`
it yields the executable as program with `args` in order. Both are Lean
functions of (strategy, executable, args), hence deterministic: every
invocation at the same inputs yields this same command shape. -/
theorem build_command_shape (executable : String) (args : List String) :
    Strategy.pkexecExecutor.command executable args
      = { program := "pkexec", args := executable :: args, envRemoved := [] } ∧
    Strategy.directExecutor.command executable args
      = { program := executable, args := args, envRemoved := [] } :=
  ⟨rfl, rfl⟩

/-- C9: when the `PKEXEC_UID` marker is absent, `service_init` issues no
descriptor operation and leaves the table unchanged; when it is present, it
issues exactly the sequence `dup2 2 3; close 2; dup2 1 2` — the slot 2→3
duplication appearing exactly once, followed by the close of the now-redundant
duplicate at slot 2 — after which slot 3 holds what slot 2 held (the inherited
channel endpoint) and the standard-error slot 2 aliases what slot 1 held (the
standard-output stream the client observes, the channel's auxiliary output
path), every other slot unchanged. -/
theorem service_init_descriptor_semantics (env : Env) (t : FdTable) :
    (env "PKEXEC_UID" = none →
      service_initOps env = [] ∧ ∀ fd, service_init env t fd = t fd) ∧
    ((env "PKEXEC_UID").isSome = true →
      service_initOps env = [.dup2 2 3, .close 2, .dup2 1 2] ∧
      (service_initOps env).count (.dup2 2 3) = 1 ∧
      service_init env t 3 = t 2 ∧
      service_init env t 2 = t 1 ∧
      ∀ fd, fd ≠ 2 → fd ≠ 3 → service_init env t fd = t fd) := by
  constructor
  · intro h
    refine ⟨by simp [service_initOps, h], fun fd => ?_⟩
    simp [service_init, service_initOps, h, applyFdOps]
  · intro h
    obtain ⟨v, hv⟩ := Option.isSome_iff_exists.mp h
    have hops : service_initOps env = [.dup2 2 3, .close 2, .dup2 1 2] := by
      simp [service_initOps, hv, Strategy.child_fd, Strategy.parent_fd]
    refine ⟨hops, by rw [hops]; rfl, ?_, ?_, ?_⟩
    · simp [service_init, hops, applyFdOps, applyFdOp]
    · simp [service_init, hops, applyFdOps, applyFdOp]
    · intro fd h2 h3
      simp [service_init, hops, applyFdOps, applyFdOp, h2, h3]

/-- C9 witness: with the marker present and a table holding distinct resources
at slots 1 and 2, after `service_init` slot 2 holds the old slot-1 resource and
slot 3 the old slot-2 resource. -/
theorem service_init_descriptor_semantics_witness :
    service_init (fun _ => some "1000")
        (fun fd => if fd = 1 then some 11 else if fd = 2 then some 22 else none)
        2 = some 11 ∧
    service_init (fun _ => some "1000")
        (fun fd => if fd = 1 then some 11 else if fd = 2 then some 22 else none)
        3 = some 22 := by
  have h := (service_init_descriptor_semantics (fun _ => some "1000")
    (fun fd =>
      if fd = 1 then some 11 else if fd = 2 then some 22 else none)).2 rfl
  exact ⟨h.2.2.2.1.trans (by norm_num), h.2.2.1.trans (by norm_num)⟩

/-- C10: `ServiceListener::new` computes the same recovery descriptor slot (3)
in both branches of the marker check — the two strategies' `parent_fd` agree —
so for any two environments, one with the marker present and one with it
absent, the listener is reconstructed from the same raw descriptor. -/
theorem service_listener_marker_independent (env₁ env₂ : Env) :
    Strategy.pkexecExecutor.parent_fd = Strategy.directExecutor.parent_fd ∧
    serviceListenerFd env₁ = 3 ∧
    serviceListenerFd env₁ = serviceListenerFd env₂ :=
  ⟨rfl, serviceListenerFd_eq_three env₁,
    (serviceListenerFd_eq_three env₁).trans
      (serviceListenerFd_eq_three env₂).symm⟩

end PrivilegedIpc
